import Mathlib

/-!
Verification development for the membership-portal admin hub:
a shallow embedding of the in-process publish/subscribe event hub
(`portal/sse.py`), the task/chat coordination service
(`portal/services.py`), the account display-name resolution
(`portal/models.py`) and the mutation-handler text pipelines
(`portal/views.py` together with the Django form validation implied by
`portal/forms.py` and the model field bounds), with theorems settling
the specification's claims about them.

Strings are modelled by Lean `String`; Python `str.strip` and
`str.lower` are modelled on the underlying character list (`lower`
in the ASCII range, which covers every enumerated value and every
input the claims quantify over).
-/

/-- Characters stripped by Python `str.strip()` (ASCII whitespace). -/
def isSpaceChar (c : Char) : Bool :=
  c == ' ' || c == '\t' || c == '\n' || c == '\r' || c == '\x0b' || c == '\x0c'

/-- Strip leading and trailing whitespace from a character list. -/
def stripL (l : List Char) : List Char :=
  ((l.dropWhile isSpaceChar).reverse.dropWhile isSpaceChar).reverse

/-- Model of Python `str.strip()`. -/
def pyStrip (s : String) : String := ⟨stripL s.data⟩

/-- Model of Python `str.lower()` on one character (ASCII range). -/
def lowerChar (c : Char) : Char :=
  if 65 ≤ c.toNat ∧ c.toNat ≤ 90 then Char.ofNat (c.toNat + 32) else c

/-- Model of Python `str.lower()`. -/
def pyLower (s : String) : String := ⟨s.data.map lowerChar⟩

/-- Model of Python `needle in hay` substring membership. -/
def strContains (hay needle : String) : Bool := decide (needle.data <:+: hay.data)

/-- Case-insensitive containment, the semantics of the ORM `icontains` lookup. -/
def icontains (hay needle : String) : Bool := strContains (pyLower hay) (pyLower needle)

/-- Case-insensitive substring as a proposition (needle occurs in hay). -/
def ciSub (needle hay : String) : Prop := (pyLower needle).data <:+: (pyLower hay).data

instance instDecCiSub (needle hay : String) : Decidable (ciSub needle hay) := by
  unfold ciSub; exact inferInstance

/-! ## Event hub (`portal/sse.py`, class `AdminEventHub`)

Channels are `queue.Queue(maxsize=4)` objects; we name them by a
fresh natural number and keep each channel's pending events as a list
(FIFO: `put_nowait` appends at the tail).  The `_clients` set is a
`Finset Nat`.  Because every membership mutation and the snapshot read
in `broadcast` happen under `self._lock`, each Python operation is one
atomic step on this state. -/

structure HubState where
  nextId : Nat
  registered : Finset Nat
  mailbox : Nat → List String

/-- `AdminEventHub.__init__`: empty client set, no pending events. -/
def emptyHub : HubState := ⟨0, ∅, fun _ => []⟩

/-- `AdminEventHub.register`: allocate a fresh empty queue of capacity 4
and add it to the client set. -/
def register (s : HubState) : Nat × HubState :=
  (s.nextId,
   { nextId := s.nextId + 1,
     registered := insert s.nextId s.registered,
     mailbox := fun d => if d = s.nextId then [] else s.mailbox d })

/-- `AdminEventHub.unregister`: remove the channel from the set if present,
then drain its pending entries. -/
def unregister (c : Nat) (s : HubState) : HubState :=
  { s with
    registered := s.registered.erase c,
    mailbox := fun d => if d = c then [] else s.mailbox d }

/-- `AdminEventHub.broadcast`: snapshot the client set under the lock, then
`put_nowait` the event into each snapshotted channel, silently skipping any
channel whose queue is full (`maxsize = 4`). -/
def broadcast (e : String) (s : HubState) : HubState :=
  { s with
    mailbox := fun d =>
      if d ∈ s.registered ∧ (s.mailbox d).length < 4 then s.mailbox d ++ [e]
      else s.mailbox d }

/-- A channel receives a broadcast exactly when its mailbox gains the event. -/
def receives (s : HubState) (e : String) (c : Nat) : Prop :=
  (broadcast e s).mailbox c = s.mailbox c ++ [e]

instance instDecReceives (s : HubState) (e : String) (c : Nat) :
    Decidable (receives s e c) := by
  unfold receives; exact inferInstance

/-- Number of channels that receive a given broadcast from state `s`. -/
def receiverCount (s : HubState) (e : String) : Nat :=
  (s.registered.filter (fun c => receives s e c)).card

/-- One hub API call. -/
inductive HubOp where
  | reg : HubOp
  | unreg : Nat → HubOp
  | bcast : String → HubOp

/-- Apply one hub API call to the hub state. -/
def runOp (s : HubState) : HubOp → HubState
  | HubOp.reg => (register s).2
  | HubOp.unreg c => unregister c s
  | HubOp.bcast e => broadcast e s

/-- Hub state after a sequence of register/unregister/broadcast calls. -/
def run (ops : List HubOp) : HubState := ops.foldl runOp emptyHub

/-- Invariant of every reachable hub state: channel ids are below the
allocation counter and channels outside the client set hold no events. -/
def hubInv (s : HubState) : Prop :=
  (∀ c ∈ s.registered, c < s.nextId) ∧ (∀ c, c ∉ s.registered → s.mailbox c = [])

/-! ## Task/chat store and coordination service (`portal/services.py`,
`portal/models.py`) -/

/-- The fields of `AccountUser` that display-name resolution and task
search read (`portal/models.py`). -/
structure AccountUser where
  full_name : String
  first_name : String
  last_name : String
  username : String
deriving DecidableEq

/-- Django `AbstractUser.get_full_name`: first and last name joined by a
space, stripped. -/
def get_full_name (u : AccountUser) : String := pyStrip (u.first_name ++ " " ++ u.last_name)

/-- `AccountUser.display_name` (`portal/models.py` lines 47-52). -/
def display_name (u : AccountUser) : String :=
  if u.full_name ≠ "" then pyStrip u.full_name
  else if pyStrip (get_full_name u) ≠ "" then pyStrip (get_full_name u)
  else u.username

/-- A calendar date (Python `datetime.date`); the maximum representable
value is 9999-12-31. -/
structure PDate where
  year : Nat
  month : Nat
  day : Nat
deriving DecidableEq

/-- Chronological strict order on dates (`date.__lt__`). -/
def dateLT (a b : PDate) : Prop :=
  a.year < b.year ∨ (a.year = b.year ∧
    (a.month < b.month ∨ (a.month = b.month ∧ a.day < b.day)))

instance instDecDateLT (a b : PDate) : Decidable (dateLT a b) := by
  unfold dateLT; exact inferInstance

/-- The fields of `ChatTask` that the coordination service reads. -/
structure ChatTask where
  id : Nat
  title : String
  description : String
  status : String
  priority : String
  due_date : Option PDate
  assigned_to : Option AccountUser
  created_at : Nat
deriving DecidableEq

/-- `TaskFilter` dataclass. -/
structure TaskFilter where
  status : String := ""
  priority : String := ""
  query : String := ""
deriving DecidableEq

/-- `TaskSummary` dataclass. -/
structure TaskSummary where
  total : Nat := 0
  todo : Nat := 0
  in_progress : Nat := 0
  blocked : Nat := 0
  done : Nat := 0
  urgent : Nat := 0
  high : Nat := 0
  medium : Nat := 0
  low : Nat := 0
deriving DecidableEq

/-- `VALID_TASK_STATUSES` (the `ChatTask.Status` choices). -/
def VALID_TASK_STATUSES : List String := ["todo", "in_progress", "blocked", "done"]

/-- `VALID_TASK_PRIORITIES` (the `ChatTask.Priority` choices). -/
def VALID_TASK_PRIORITIES : List String := ["low", "medium", "high", "urgent"]

/-- `sanitize_task_filter` (`portal/services.py` lines 128-136). -/
def sanitize_task_filter (f : TaskFilter) : TaskFilter :=
  let status := pyLower (pyStrip f.status)
  let priority := pyLower (pyStrip f.priority)
  let query := pyStrip f.query
  { status := if status ∈ VALID_TASK_STATUSES then status else "",
    priority := if priority ∈ VALID_TASK_PRIORITIES then priority else "",
    query := query }

/-- `matches_task_filter` (`portal/services.py` lines 139-148): the
in-memory helper, which matches the query against the assignee
display name. -/
def matches_task_filter (t : ChatTask) (f : TaskFilter) : Bool :=
  if f.status ≠ "" ∧ t.status ≠ f.status then false
  else if f.priority ≠ "" ∧ t.priority ≠ f.priority then false
  else if f.query ≠ "" then
    strContains (pyLower t.title) (pyLower f.query) ||
    strContains (pyLower t.description) (pyLower f.query) ||
    strContains
      (match t.assigned_to with
       | some u => pyLower (display_name u)
       | none => "")
      (pyLower f.query)
  else true

/-- The text-query predicate that `tasks_for_admin` actually pushes into the
ORM: `title__icontains | description__icontains |
assigned_to__full_name__icontains | assigned_to__username__icontains`
(an unassigned task matches none of the assignee lookups). -/
def ormQueryMatch (t : ChatTask) (q : String) : Bool :=
  icontains t.title q || icontains t.description q ||
  (match t.assigned_to with
   | some u => icontains u.full_name q || icontains u.username q
   | none => false)

/-- The three `filter` applications of `tasks_for_admin` on an
already-sanitized filter. -/
def filteredTasks (tasks : List ChatTask) (s : TaskFilter) : List ChatTask :=
  let l1 := if s.status ≠ "" then tasks.filter (fun t => t.status == s.status) else tasks
  let l2 := if s.priority ≠ "" then l1.filter (fun t => t.priority == s.priority) else l1
  if s.query ≠ "" then l2.filter (fun t => ormQueryMatch t s.query) else l2

/-- First `order_by` key: `Case(When(status="done", then 1), default 0)`. -/
def doneRank (t : ChatTask) : Nat := if t.status = "done" then 1 else 0

/-- Second `order_by` key: urgent 0, high 1, medium 2, default 3
(both `low` and any unrecognized priority fall into the default). -/
def prioRank (t : ChatTask) : Nat :=
  if t.priority = "urgent" then 0
  else if t.priority = "high" then 1
  else if t.priority = "medium" then 2
  else 3

/-- Third `order_by` key: `Coalesce("due_date", Value("9999-12-31"))`. -/
def dueDateOr (t : ChatTask) : PDate := t.due_date.getD ⟨9999, 12, 31⟩

/-- The total lexicographic comparison realized by the `order_by` clause of
`tasks_for_admin`: done-flag, then priority rank, then coalesced due date
ascending, then creation time descending. -/
def taskOrder (a b : ChatTask) : Prop :=
  doneRank a < doneRank b ∨ (doneRank a = doneRank b ∧
   (prioRank a < prioRank b ∨ (prioRank a = prioRank b ∧
    (dateLT (dueDateOr a) (dueDateOr b) ∨
     (dueDateOr a = dueDateOr b ∧ b.created_at ≤ a.created_at)))))

instance instDecTaskOrder : DecidableRel taskOrder := fun a b => by
  unfold taskOrder; exact inferInstance

instance instTaskOrderTotal : IsTotal ChatTask taskOrder :=
  ⟨by
    intro a b
    unfold taskOrder
    rcases h1 : dueDateOr a with ⟨y1, m1, d1⟩
    rcases h2 : dueDateOr b with ⟨y2, m2, d2⟩
    simp only [dateLT, PDate.mk.injEq]
    omega⟩

instance instTaskOrderTrans : IsTrans ChatTask taskOrder :=
  ⟨by
    intro a b c hab hbc
    unfold taskOrder at hab hbc ⊢
    rcases h1 : dueDateOr a with ⟨y1, m1, d1⟩
    rcases h2 : dueDateOr b with ⟨y2, m2, d2⟩
    rcases h3 : dueDateOr c with ⟨y3, m3, d3⟩
    rw [h1, h2] at hab
    rw [h2, h3] at hbc
    simp only [dateLT, PDate.mk.injEq] at hab hbc ⊢
    omega⟩

/-- The `match task.status` arm of the `task_summary` loop
(`portal/services.py` lines 166-174): bump the matching status bucket,
if any. -/
def statusBump (t : ChatTask) (s : TaskSummary) : TaskSummary :=
  if t.status = "todo" then { s with todo := s.todo + 1 }
  else if t.status = "in_progress" then { s with in_progress := s.in_progress + 1 }
  else if t.status = "blocked" then { s with blocked := s.blocked + 1 }
  else if t.status = "done" then { s with done := s.done + 1 }
  else s

/-- The `match task.priority` arm of the `task_summary` loop
(`portal/services.py` lines 175-183): bump the matching priority bucket,
if any. -/
def priorityBump (t : ChatTask) (s : TaskSummary) : TaskSummary :=
  if t.priority = "urgent" then { s with urgent := s.urgent + 1 }
  else if t.priority = "high" then { s with high := s.high + 1 }
  else if t.priority = "medium" then { s with medium := s.medium + 1 }
  else if t.priority = "low" then { s with low := s.low + 1 }
  else s

/-- `task_summary` loop body (`portal/services.py` lines 162-184): bump the
total, then the matching status bucket, then the matching priority
bucket. -/
def summaryStep (s : TaskSummary) (t : ChatTask) : TaskSummary :=
  priorityBump t (statusBump t { s with total := s.total + 1 })

/-- `task_summary`: fold the step over every stored task. -/
def task_summary (tasks : List ChatTask) : TaskSummary :=
  tasks.foldl summaryStep {}

/-- `tasks_for_admin` (`portal/services.py` lines 262-292): sanitize the
filter, apply the status/priority/query filters, sort by the `order_by`
key (the database guarantees the key ordering but no particular tie
order; we realize it with a sort by `taskOrder`), and compute the summary
over the full unfiltered task set. -/
def tasks_for_admin (tasks : List ChatTask) (f : TaskFilter) : List ChatTask × TaskSummary :=
  let s := sanitize_task_filter f
  ((filteredTasks tasks s).insertionSort taskOrder, task_summary tasks)

/-! ## Due-date parsing (`portal/services.py` lines 93-112) -/

/-- `strftime` month abbreviation. -/
def monthAbbrev : Nat → String
  | 1 => "Jan" | 2 => "Feb" | 3 => "Mar" | 4 => "Apr"
  | 5 => "May" | 6 => "Jun" | 7 => "Jul" | 8 => "Aug"
  | 9 => "Sep" | 10 => "Oct" | 11 => "Nov" | 12 => "Dec"
  | _ => ""

/-- Zero-padded two-digit day, as produced by `strftime` `%d`. -/
def pad2 (n : Nat) : String := if n < 10 then "0" ++ toString n else toString n

/-- `strftime("%d %b %Y")`. -/
def formatDateHuman (d : PDate) : String :=
  pad2 d.day ++ " " ++ monthAbbrev d.month ++ " " ++ toString d.year

/-- `parse_due_date` on the date-or-None values `task_to_dto` feeds it:
`None` yields no overdue flag, a done task is never overdue, otherwise the
task is overdue exactly when the due date is before the current local
date. -/
def parse_due_date (raw : Option PDate) (status : String) (today : PDate) :
    String × Bool :=
  match raw with
  | none => ("", false)
  | some d =>
    if status = "done" then (formatDateHuman d, false)
    else (formatDateHuman d, decide (dateLT d today))

/-! ## Mutation-handler text pipelines (`portal/views.py` lines 436-521)

Each handler first validates its Django form, then truncates the cleaned
text and persists it.  Form validation follows the model field bounds:
`ChatMessage.body` and `ChatTask.description` are `TextField`s (no length
limit; `description` may be blank), while `ChatTask.title` and
`ChatTaskItem.label` are `CharField`s with `max_length` 200 and 500, which
the generated form fields enforce as validation errors.  Every `CharField`
form field strips surrounding whitespace and rejects a required field that
is empty after stripping.  `none` models the `HttpResponseBadRequest`
branch; `some` carries the persisted text. -/

/-- `create_chat_message`: validate (required, no length cap), then persist
`body[:4000]`. -/
def create_chat_message (body : String) : Option String :=
  let cleaned := pyStrip body
  if cleaned = "" then none
  else some (cleaned.take 4000)

/-- `create_chat_task`, text fields only: the form rejects a title that is
empty or longer than 200 characters; on success the view persists
`title[:200]` and `description[:4000]`. -/
def create_chat_task (title description : String) : Option (String × String) :=
  let t := pyStrip title
  let d := pyStrip description
  if t = "" then none
  else if 200 < t.length then none
  else some (t.take 200, d.take 4000)

/-- `add_task_todo`, text field only: the form rejects a label that is
empty or longer than 500 characters; on success the view persists
`label[:500]`. -/
def create_todo (label : String) : Option String :=
  let l := pyStrip label
  if l = "" then none
  else if 500 < l.length then none
  else some (l.take 500)

/-! ## Helper lemmas: stripping is idempotent -/

theorem hubState_eq_of_fields {s t : HubState} (h1 : s.nextId = t.nextId)
    (h2 : s.registered = t.registered) (h3 : s.mailbox = t.mailbox) : s = t := by
  cases s; cases t; simp_all

theorem dropWhile_cons_false {α : Type} (p : α → Bool) (c : α) (t : List α)
    (h : p c = false) : List.dropWhile p (c :: t) = c :: t := by
  simp [List.dropWhile_cons, h]

theorem dropWhile_self_idem {α : Type} (p : α → Bool) (l : List α) :
    List.dropWhile p (List.dropWhile p l) = List.dropWhile p l := by
  induction l with
  | nil => rfl
  | cons c t ih =>
    by_cases h : p c
    · simp [List.dropWhile_cons, h, ih]
    · have h2 : p c = false := by simpa using h
      rw [dropWhile_cons_false p c t h2, dropWhile_cons_false p c t h2]

theorem stripL_dropWhile (l : List Char) :
    List.dropWhile isSpaceChar (stripL l) = stripL l := by
  have hpre : stripL l <+: l.dropWhile isSpaceChar := by
    have h1 : (l.dropWhile isSpaceChar).reverse.dropWhile isSpaceChar <:+
        (l.dropWhile isSpaceChar).reverse := List.dropWhile_suffix _
    have h2 := h1.reverse
    simpa [stripL] using h2
  rcases hS : stripL l with _ | ⟨c, t⟩
  · rfl
  · apply dropWhile_cons_false
    rw [hS] at hpre
    obtain ⟨s, hs⟩ := hpre
    have hhead := List.head?_dropWhile_not isSpaceChar l
    rw [← hs] at hhead
    simpa using hhead

theorem stripL_idem (l : List Char) : stripL (stripL l) = stripL l := by
  have h := stripL_dropWhile l
  show (((stripL l).dropWhile isSpaceChar).reverse.dropWhile isSpaceChar).reverse = stripL l
  rw [h]
  unfold stripL
  rw [List.reverse_reverse, dropWhile_self_idem]

theorem pyStrip_idem (s : String) : pyStrip (pyStrip s) = pyStrip s := by
  unfold pyStrip
  exact congrArg String.mk (stripL_idem s.data)

/-! ## Helper lemmas: filter sanitization -/

theorem taskFilter_eq_of_fields {a b : TaskFilter} (h1 : a.status = b.status)
    (h2 : a.priority = b.priority) (h3 : a.query = b.query) : a = b := by
  cases a; cases b; simp_all

theorem sanitize_status_eq (f : TaskFilter) :
    (sanitize_task_filter f).status =
      (if pyLower (pyStrip f.status) ∈ VALID_TASK_STATUSES
       then pyLower (pyStrip f.status) else "") := rfl

theorem sanitize_priority_eq (f : TaskFilter) :
    (sanitize_task_filter f).priority =
      (if pyLower (pyStrip f.priority) ∈ VALID_TASK_PRIORITIES
       then pyLower (pyStrip f.priority) else "") := rfl

theorem sanitize_query_eq (f : TaskFilter) :
    (sanitize_task_filter f).query = pyStrip f.query := rfl

theorem sanitize_status_cases (f : TaskFilter) :
    (sanitize_task_filter f).status = "" ∨
      (sanitize_task_filter f).status ∈ VALID_TASK_STATUSES := by
  rw [sanitize_status_eq]
  by_cases h : pyLower (pyStrip f.status) ∈ VALID_TASK_STATUSES
  · exact Or.inr (by simp [h])
  · exact Or.inl (by simp [h])

theorem sanitize_priority_cases (f : TaskFilter) :
    (sanitize_task_filter f).priority = "" ∨
      (sanitize_task_filter f).priority ∈ VALID_TASK_PRIORITIES := by
  rw [sanitize_priority_eq]
  by_cases h : pyLower (pyStrip f.priority) ∈ VALID_TASK_PRIORITIES
  · exact Or.inr (by simp [h])
  · exact Or.inl (by simp [h])

theorem valid_status_fixed : ∀ v ∈ VALID_TASK_STATUSES, pyLower (pyStrip v) = v := by
  intro v hv
  simp only [VALID_TASK_STATUSES, List.mem_cons, List.not_mem_nil, or_false] at hv
  rcases hv with h | h | h | h <;> subst h <;> decide

theorem valid_priority_fixed : ∀ v ∈ VALID_TASK_PRIORITIES, pyLower (pyStrip v) = v := by
  intro v hv
  simp only [VALID_TASK_PRIORITIES, List.mem_cons, List.not_mem_nil, or_false] at hv
  rcases hv with h | h | h | h <;> subst h <;> decide

/-- C9: `sanitize_task_filter` is a pure total function; it is idempotent,
its status/priority output is empty or an enumerated value, and its query
output is whitespace-trimmed. -/
theorem C9_sanitize_idempotent :
    ∀ f : TaskFilter,
      sanitize_task_filter (sanitize_task_filter f) = sanitize_task_filter f ∧
      ((sanitize_task_filter f).status = "" ∨
        (sanitize_task_filter f).status ∈ VALID_TASK_STATUSES) ∧
      ((sanitize_task_filter f).priority = "" ∨
        (sanitize_task_filter f).priority ∈ VALID_TASK_PRIORITIES) ∧
      pyStrip (sanitize_task_filter f).query = (sanitize_task_filter f).query := by
  intro f
  refine ⟨?_, sanitize_status_cases f, sanitize_priority_cases f, ?_⟩
  · apply taskFilter_eq_of_fields
    · rw [sanitize_status_eq (sanitize_task_filter f)]
      rcases sanitize_status_cases f with h | h
      · rw [h]; decide
      · rw [valid_status_fixed _ h]; simp [h]
    · rw [sanitize_priority_eq (sanitize_task_filter f)]
      rcases sanitize_priority_cases f with h | h
      · rw [h]; decide
      · rw [valid_priority_fixed _ h]; simp [h]
    · rw [sanitize_query_eq (sanitize_task_filter f), sanitize_query_eq f]
      exact pyStrip_idem f.query
  · rw [sanitize_query_eq f]
    exact pyStrip_idem f.query

/-- C10: `sanitize_task_filter` keeps any status/priority whose
stripped-and-lowercased form is an enumerated value (carrying the
lowercased value), and clears exactly the others. -/
theorem C10_sanitize_normalizes :
    ∀ f : TaskFilter,
      (pyLower (pyStrip f.status) ∈ VALID_TASK_STATUSES →
        (sanitize_task_filter f).status = pyLower (pyStrip f.status)) ∧
      (pyLower (pyStrip f.status) ∉ VALID_TASK_STATUSES →
        (sanitize_task_filter f).status = "") ∧
      (pyLower (pyStrip f.priority) ∈ VALID_TASK_PRIORITIES →
        (sanitize_task_filter f).priority = pyLower (pyStrip f.priority)) ∧
      (pyLower (pyStrip f.priority) ∉ VALID_TASK_PRIORITIES →
        (sanitize_task_filter f).priority = "") := by
  intro f
  refine ⟨fun h => ?_, fun h => ?_, fun h => ?_, fun h => ?_⟩ <;>
    simp [sanitize_status_eq, sanitize_priority_eq, h]

/-- Witness for C10 at the claim's own example: status " TODO " sanitizes
to "todo", while an unrecognized priority is cleared. -/
theorem C10_sanitize_normalizes_witness :
    (sanitize_task_filter ⟨" TODO ", "zzz", ""⟩).status = pyLower (pyStrip " TODO ") ∧
    (sanitize_task_filter ⟨" TODO ", "zzz", ""⟩).priority = "" ∧
    pyLower (pyStrip " TODO ") = "todo" :=
  ⟨(C10_sanitize_normalizes ⟨" TODO ", "zzz", ""⟩).1 (by decide),
   (C10_sanitize_normalizes ⟨" TODO ", "zzz", ""⟩).2.2.2 (by decide),
   by decide⟩

/-! ## Helper lemmas: hub invariant -/

theorem hubInv_emptyHub : hubInv emptyHub := by
  constructor
  · intro c hc
    simp [emptyHub] at hc
  · intro c _
    rfl

theorem hubInv_runOp (s : HubState) (op : HubOp) (h : hubInv s) : hubInv (runOp s op) := by
  cases op with
  | reg =>
    constructor
    · intro c hc
      simp only [runOp, register, Finset.mem_insert] at hc ⊢
      rcases hc with hc | hc
      · omega
      · have := h.1 c hc
        omega
    · intro c hc
      simp only [runOp, register, Finset.mem_insert, not_or] at hc ⊢
      rw [if_neg hc.1]
      exact h.2 c hc.2
  | unreg c0 =>
    constructor
    · intro c hc
      exact h.1 c (Finset.mem_of_mem_erase hc)
    · intro c hc
      simp only [runOp, unregister] at hc ⊢
      by_cases hcc : c = c0
      · rw [if_pos hcc]
      · rw [if_neg hcc]
        rw [Finset.mem_erase] at hc
        push_neg at hc
        exact h.2 c (hc hcc)
  | bcast e =>
    constructor
    · intro c hc
      exact h.1 c hc
    · intro c hc
      simp only [runOp, broadcast] at hc ⊢
      rw [if_neg (fun hand => hc hand.1)]
      exact h.2 c hc

theorem hubInv_foldl : ∀ (ops : List HubOp) (s : HubState), hubInv s → hubInv (ops.foldl runOp s) := by
  intro ops
  induction ops with
  | nil => intro s h; exact h
  | cons op t ih => intro s h; exact ih _ (hubInv_runOp s op h)

theorem hubInv_run (ops : List HubOp) : hubInv (run ops) :=
  hubInv_foldl ops emptyHub hubInv_emptyHub

theorem receives_iff (s : HubState) (e : String) (c : Nat) :
    receives s e c ↔ (c ∈ s.registered ∧ (s.mailbox c).length < 4) := by
  unfold receives broadcast
  dsimp only
  by_cases h : c ∈ s.registered ∧ (s.mailbox c).length < 4
  · rw [if_pos h]
    simp [h]
  · rw [if_neg h]
    simp only [h, iff_false]
    intro heq
    have := congrArg List.length heq
    simp at this

/-! ## C1 and its counterexample -/

/-- C1 as stated is false: with one registered channel whose mailbox
already holds 4 pending events (capacity `maxsize=4`), a fifth broadcast
is delivered to 0 channels although 1 channel is registered at the
snapshot instant. -/
theorem C1_full_mailbox_counterexample :
    (run [HubOp.reg, HubOp.bcast "e1", HubOp.bcast "e2",
          HubOp.bcast "e3", HubOp.bcast "e4"]).registered.card = 1 ∧
    receiverCount (run [HubOp.reg, HubOp.bcast "e1", HubOp.bcast "e2",
          HubOp.bcast "e3", HubOp.bcast "e4"]) "e5" = 0 := by
  constructor
  · decide
  · decide

/-- C1 amended: a broadcast delivers the event to exactly those channels
that are registered at the snapshot instant AND whose mailbox is not full
(fewer than 4 pending events); the membership set itself is unchanged, and
the number of receiving channels equals the number of registered channels
with a non-full mailbox.  In particular channels registered after the
snapshot or unregistered before it receive nothing. -/
theorem C1_broadcast_snapshot_amended :
    ∀ (s : HubState) (e : String),
      (∀ c : Nat, receives s e c ↔ (c ∈ s.registered ∧ (s.mailbox c).length < 4)) ∧
      (broadcast e s).registered = s.registered ∧
      receiverCount s e =
        (s.registered.filter (fun c => (s.mailbox c).length < 4)).card := by
  intro s e
  refine ⟨receives_iff s e, rfl, ?_⟩
  unfold receiverCount
  congr 1
  apply Finset.filter_congr
  intro c hc
  simp [receives_iff s e c, hc]

/-! ## C2: hub operations never fail observably -/

/-- C2: `register` always succeeds returning a channel with a fresh empty
mailbox that is in the subscriber set (and, on every reachable hub state,
distinct from every existing channel); a mailbox never grows past its
capacity of 4; `unregister` is idempotent and, on every reachable state,
a no-op for a channel that is not registered; and `broadcast` on a full
mailbox silently leaves it unchanged instead of failing. -/
theorem C2_hub_ops_never_fail :
    (∀ s : HubState, (register s).2.mailbox (register s).1 = [] ∧
      (register s).1 ∈ (register s).2.registered) ∧
    (∀ ops : List HubOp, (register (run ops)).1 ∉ (run ops).registered) ∧
    (∀ (s : HubState) (e : String) (c : Nat),
      ((broadcast e s).mailbox c).length ≤ max ((s.mailbox c).length) 4) ∧
    (∀ (c : Nat) (s : HubState), unregister c (unregister c s) = unregister c s) ∧
    (∀ (ops : List HubOp) (c : Nat), c ∉ (run ops).registered →
      unregister c (run ops) = run ops) ∧
    (∀ (s : HubState) (e : String) (c : Nat), (s.mailbox c).length = 4 →
      (broadcast e s).mailbox c = s.mailbox c) := by
  refine ⟨?_, ?_, ?_, ?_, ?_, ?_⟩
  · intro s
    constructor
    · simp [register]
    · simp [register]
  · intro ops hmem
    have h := (hubInv_run ops).1 _ hmem
    simp [register] at h
  · intro s e c
    unfold broadcast
    dsimp only
    by_cases h : c ∈ s.registered ∧ (s.mailbox c).length < 4
    · rw [if_pos h]
      simp only [List.length_append, List.length_cons, List.length_nil]
      omega
    · rw [if_neg h]
      exact Nat.le_max_left _ _
  · intro c s
    apply hubState_eq_of_fields
    · rfl
    · exact Finset.erase_idem
    · funext d
      by_cases h : d = c
      · simp [unregister, h]
      · simp [unregister, h]
  · intro ops c hc
    apply hubState_eq_of_fields
    · rfl
    · exact Finset.erase_eq_of_not_mem hc
    · funext d
      by_cases h : d = c
      · subst h
        simp [unregister, ((hubInv_run ops).2 d hc).symm]
      · simp [unregister, h]
  · intro s e c hfull
    unfold broadcast
    dsimp only
    rw [if_neg (fun hand => by omega)]

/-- Witness for C2: unregistering a channel absent from a reachable state
is a no-op, and broadcasting into a full mailbox leaves it unchanged. -/
theorem C2_hub_ops_never_fail_witness :
    unregister 7 (run [HubOp.reg]) = run [HubOp.reg] ∧
    (broadcast "e9" (run [HubOp.reg, HubOp.bcast "e1", HubOp.bcast "e2",
        HubOp.bcast "e3", HubOp.bcast "e4"])).mailbox 0 =
      (run [HubOp.reg, HubOp.bcast "e1", HubOp.bcast "e2",
        HubOp.bcast "e3", HubOp.bcast "e4"]).mailbox 0 :=
  ⟨C2_hub_ops_never_fail.2.2.2.2.1 [HubOp.reg] 7 (by decide),
   C2_hub_ops_never_fail.2.2.2.2.2 _ "e9" 0 (by decide)⟩

/-! ## C3: sort order of the admin task list -/

/-- C3 as stated is false in two places.  (i) The `order_by` priority
`Case` maps `low` and every unrecognized priority to the same rank 3, so a
later-created task with unrecognized priority sorts before an otherwise
equal task with priority `low`.  (ii) A task lacking a due date is
coalesced to the maximum representable date 9999-12-31, so it ties with —
and by the creation-time tie-break can precede — a task dated exactly
9999-12-31. -/
theorem C3_sort_counterexample :
    ((tasks_for_admin
        [⟨1, "x", "", "todo", "low", none, none, 1⟩,
         ⟨2, "y", "", "todo", "zzz", none, none, 2⟩] {}).1 =
      [⟨2, "y", "", "todo", "zzz", none, none, 2⟩,
       ⟨1, "x", "", "todo", "low", none, none, 1⟩] ∧
      ("zzz" : String) ∉ VALID_TASK_PRIORITIES) ∧
    (tasks_for_admin
        [⟨1, "d", "", "todo", "medium", some ⟨9999, 12, 31⟩, none, 1⟩,
         ⟨2, "u", "", "todo", "medium", none, none, 2⟩] {}).1 =
      [⟨2, "u", "", "todo", "medium", none, none, 2⟩,
       ⟨1, "d", "", "todo", "medium", some ⟨9999, 12, 31⟩, none, 1⟩] := by
  exact ⟨⟨by decide, by decide⟩, by decide⟩

/-- C3 amended: the task list returned by `tasks_for_admin` is sorted by,
in order: (a) non-done before done; (b) priority rank urgent < high <
medium < (low = unrecognized), with `low` and unrecognized priorities
sharing the last rank; (c) due date ascending with a missing due date
treated as the maximum representable date 9999-12-31; (d) creation time
descending.  The list is a permutation of the filtered task set, and the
specification's A/B/C scenario sorts as expected. -/
theorem C3_sort_amended :
    (∀ (tasks : List ChatTask) (f : TaskFilter),
      List.Sorted taskOrder (tasks_for_admin tasks f).1 ∧
      ((tasks_for_admin tasks f).1).Perm
        (filteredTasks tasks (sanitize_task_filter f))) ∧
    (tasks_for_admin
        [⟨3, "C", "", "done", "urgent", some ⟨2024, 1, 1⟩, none, 3⟩,
         ⟨2, "B", "", "todo", "high", none, none, 2⟩,
         ⟨1, "A", "", "todo", "urgent", some ⟨2024, 1, 10⟩, none, 1⟩] {}).1 =
      [⟨1, "A", "", "todo", "urgent", some ⟨2024, 1, 10⟩, none, 1⟩,
       ⟨2, "B", "", "todo", "high", none, none, 2⟩,
       ⟨3, "C", "", "done", "urgent", some ⟨2024, 1, 1⟩, none, 3⟩] := by
  constructor
  · intro tasks f
    exact ⟨List.sorted_insertionSort taskOrder _, List.perm_insertionSort taskOrder _⟩
  · decide

/-! ## C4: the summary is filter-invariant and its status buckets sum to
the total -/

theorem priorityBump_status_fields (t : ChatTask) (s : TaskSummary) :
    (priorityBump t s).todo = s.todo ∧ (priorityBump t s).in_progress = s.in_progress ∧
    (priorityBump t s).blocked = s.blocked ∧ (priorityBump t s).done = s.done ∧
    (priorityBump t s).total = s.total := by
  unfold priorityBump
  split_ifs <;> simp

theorem statusBump_counts (t : ChatTask) (s : TaskSummary)
    (h : t.status ∈ VALID_TASK_STATUSES) :
    (statusBump t s).todo + (statusBump t s).in_progress + (statusBump t s).blocked +
      (statusBump t s).done = s.todo + s.in_progress + s.blocked + s.done + 1 ∧
    (statusBump t s).total = s.total := by
  simp only [VALID_TASK_STATUSES, List.mem_cons, List.not_mem_nil, or_false] at h
  unfold statusBump
  rcases h with h | h | h | h <;> simp [h] <;> omega

theorem summaryStep_counts (s : TaskSummary) (t : ChatTask)
    (h : t.status ∈ VALID_TASK_STATUSES) :
    (summaryStep s t).todo + (summaryStep s t).in_progress + (summaryStep s t).blocked +
      (summaryStep s t).done = s.todo + s.in_progress + s.blocked + s.done + 1 ∧
    (summaryStep s t).total = s.total + 1 := by
  obtain ⟨p1, p2, p3, p4, p5⟩ :=
    priorityBump_status_fields t (statusBump t { s with total := s.total + 1 })
  obtain ⟨q1, q2⟩ := statusBump_counts t { s with total := s.total + 1 } h
  simp only at q1 q2
  unfold summaryStep
  rw [p1, p2, p3, p4, p5, q1, q2]
  omega

theorem task_summary_fold (tasks : List ChatTask) :
    ∀ s : TaskSummary, (∀ t ∈ tasks, t.status ∈ VALID_TASK_STATUSES) →
      (tasks.foldl summaryStep s).todo + (tasks.foldl summaryStep s).in_progress +
        (tasks.foldl summaryStep s).blocked + (tasks.foldl summaryStep s).done +
        s.total =
      (tasks.foldl summaryStep s).total +
        (s.todo + s.in_progress + s.blocked + s.done) := by
  induction tasks with
  | nil => intro s h; simp only [List.foldl_nil]; omega
  | cons t ts ih =>
    intro s h
    have ht := h t (List.mem_cons_self t ts)
    have hts : ∀ x ∈ ts, x.status ∈ VALID_TASK_STATUSES :=
      fun x hx => h x (List.mem_cons_of_mem t hx)
    have hstep := summaryStep_counts s t ht
    have hrec := ih (summaryStep s t) hts
    simp only [List.foldl_cons]
    omega

/-- C4: the summary returned by `tasks_for_admin` is computed from the
full unfiltered task set, hence identical for every filter; and when every
stored status is one of the four enumerated values, the four status-bucket
counts sum to the total. -/
theorem C4_summary_filter_invariant :
    (∀ (tasks : List ChatTask) (f : TaskFilter),
      (tasks_for_admin tasks f).2 = task_summary tasks) ∧
    (∀ tasks : List ChatTask, (∀ t ∈ tasks, t.status ∈ VALID_TASK_STATUSES) →
      (task_summary tasks).todo + (task_summary tasks).in_progress +
        (task_summary tasks).blocked + (task_summary tasks).done =
      (task_summary tasks).total) := by
  constructor
  · intro tasks f
    rfl
  · intro tasks h
    have hfold := task_summary_fold tasks {} h
    unfold task_summary
    simp only at hfold
    omega

/-- Witness for C4 on a one-task store with a valid status. -/
theorem C4_summary_witness :
    (task_summary [⟨1, "a", "", "todo", "low", none, none, 1⟩]).todo +
      (task_summary [⟨1, "a", "", "todo", "low", none, none, 1⟩]).in_progress +
      (task_summary [⟨1, "a", "", "todo", "low", none, none, 1⟩]).blocked +
      (task_summary [⟨1, "a", "", "todo", "low", none, none, 1⟩]).done =
    (task_summary [⟨1, "a", "", "todo", "low", none, none, 1⟩]).total :=
  C4_summary_filter_invariant.2 [⟨1, "a", "", "todo", "low", none, none, 1⟩] (by decide)

/-! ## C6: the overdue flag -/

/-- C6: the overdue flag computed by `parse_due_date` for a task DTO is
true exactly when the task has a due date strictly before the current
local date and its status is not "done"; a done task is never overdue and
a task due today or later is never overdue. -/
theorem C6_overdue_iff :
    ∀ (raw : Option PDate) (status : String) (today : PDate),
      ((parse_due_date raw status today).2 = true ↔
        ((∃ d, raw = some d ∧ dateLT d today) ∧ status ≠ "done")) := by
  intro raw status today
  cases raw with
  | none => simp [parse_due_date]
  | some d =>
    by_cases h : status = "done"
    · simp [parse_due_date, h]
    · simp [parse_due_date, h, decide_eq_true_eq]

/-! ## C5: text-query matching in the task list -/

theorem mem_filteredTasks (tasks : List ChatTask) (s : TaskFilter) (t : ChatTask) :
    t ∈ filteredTasks tasks s ↔
      t ∈ tasks ∧ (s.status ≠ "" → t.status = s.status) ∧
      (s.priority ≠ "" → t.priority = s.priority) ∧
      (s.query ≠ "" → ormQueryMatch t s.query = true) := by
  unfold filteredTasks
  by_cases h1 : s.status = "" <;> by_cases h2 : s.priority = "" <;>
    by_cases h3 : s.query = "" <;>
      simp [h1, h2, h3, List.mem_filter, beq_iff_eq, and_assoc] <;>
        tauto

theorem ormQueryMatch_iff (t : ChatTask) (q : String) :
    ormQueryMatch t q = true ↔
      (ciSub q t.title ∨ ciSub q t.description ∨
        ∃ u, t.assigned_to = some u ∧ (ciSub q u.full_name ∨ ciSub q u.username)) := by
  unfold ormQueryMatch icontains strContains ciSub
  rcases ha : t.assigned_to with _ | u <;>
    simp [Bool.or_eq_true, decide_eq_true_eq, or_assoc]

/-- C5 as stated is false: the ORM query matches the assignee's stored
`full_name` and `username` columns, not the computed display name.  Here
the assignee's display name is "Alice Smith" (from `full_name`), the query
"bob42" occurs in none of title, description, or display name — the
in-memory helper `matches_task_filter` agrees it should not match — yet
the task is included in the `tasks_for_admin` result because the query
matches the raw `username` column. -/
theorem C5_display_name_counterexample :
    (tasks_for_admin
        [⟨1, "t", "", "todo", "low", none, some ⟨"Alice Smith", "", "", "bob42"⟩, 1⟩]
        ⟨"", "", "bob42"⟩).1 =
      [⟨1, "t", "", "todo", "low", none, some ⟨"Alice Smith", "", "", "bob42"⟩, 1⟩] ∧
    display_name ⟨"Alice Smith", "", "", "bob42"⟩ = "Alice Smith" ∧
    ¬ ciSub "bob42" "t" ∧ ¬ ciSub "bob42" "" ∧ ¬ ciSub "bob42" "Alice Smith" ∧
    matches_task_filter
        ⟨1, "t", "", "todo", "low", none, some ⟨"Alice Smith", "", "", "bob42"⟩, 1⟩
        ⟨"", "", "bob42"⟩ = false := by
  refine ⟨by decide, by decide, by decide, by decide, by decide, by decide⟩

/-- C5 amended: for a sanitized filter with a non-empty text query, a task
is in the `tasks_for_admin` result exactly when it passes the exact
status/priority filters and the query is a case-insensitive substring of
its title, of its description, or of its assignee's stored full name or
username (not of the computed display name); any one match suffices, and
an unassigned task can only match on title or description. -/
theorem C5_query_membership_amended :
    ∀ (tasks : List ChatTask) (f : TaskFilter) (t : ChatTask),
      (sanitize_task_filter f).query ≠ "" →
      (t ∈ (tasks_for_admin tasks f).1 ↔
        t ∈ tasks ∧
        ((sanitize_task_filter f).status ≠ "" →
          t.status = (sanitize_task_filter f).status) ∧
        ((sanitize_task_filter f).priority ≠ "" →
          t.priority = (sanitize_task_filter f).priority) ∧
        (ciSub (sanitize_task_filter f).query t.title ∨
         ciSub (sanitize_task_filter f).query t.description ∨
         ∃ u, t.assigned_to = some u ∧
           (ciSub (sanitize_task_filter f).query u.full_name ∨
            ciSub (sanitize_task_filter f).query u.username))) := by
  intro tasks f t hq
  have hperm : (tasks_for_admin tasks f).1.Perm
      (filteredTasks tasks (sanitize_task_filter f)) :=
    List.perm_insertionSort taskOrder _
  rw [hperm.mem_iff, mem_filteredTasks]
  have himp : ((sanitize_task_filter f).query ≠ "" →
      ormQueryMatch t (sanitize_task_filter f).query = true) ↔
      ormQueryMatch t (sanitize_task_filter f).query = true := by
    simp [hq]
  rw [himp, ormQueryMatch_iff]

/-- Witness for C5: a query matching only the assignee's stored full name
includes the task. -/
theorem C5_query_membership_witness :
    (⟨1, "t", "", "todo", "low", none, some ⟨"Alice Smith", "", "", "bob42"⟩, 1⟩ : ChatTask) ∈
      (tasks_for_admin
        [⟨1, "t", "", "todo", "low", none, some ⟨"Alice Smith", "", "", "bob42"⟩, 1⟩]
        ⟨"", "", "alice"⟩).1 :=
  (C5_query_membership_amended
      [⟨1, "t", "", "todo", "low", none, some ⟨"Alice Smith", "", "", "bob42"⟩, 1⟩]
      ⟨"", "", "alice"⟩
      ⟨1, "t", "", "todo", "low", none, some ⟨"Alice Smith", "", "", "bob42"⟩, 1⟩
      (by decide)).mpr
    ⟨by decide, by decide, by decide,
     Or.inr (Or.inr ⟨⟨"Alice Smith", "", "", "bob42"⟩, rfl, Or.inl (by decide)⟩)⟩

/-! ## C7: field-length caps in the mutation handlers -/

set_option maxRecDepth 8000

/-- C7 as stated is false for titles and todo labels: a 201-character task
title (or a 501-character todo label) fails Django form validation —
`CharField.max_length` from the model — so the create is rejected with an
error response instead of persisting a truncated value. -/
theorem C7_truncation_counterexample :
    create_chat_task (String.mk (List.replicate 201 'a')) "desc" = none ∧
    (String.mk (List.replicate 201 'a')).length = 201 ∧
    create_todo (String.mk (List.replicate 501 'b')) = none ∧
    (String.mk (List.replicate 501 'b')).length = 501 := by
  refine ⟨by decide, by decide, by decide, by decide⟩

/-- C7 amended: over-cap chat bodies and task descriptions are truncated
(the persisted text is the first 4000 characters of the whitespace-trimmed
submission) and the create succeeds; but a task title longer than 200
characters or a todo label longer than 500 characters is rejected by form
validation — for those two fields the `[:200]` / `[:500]` truncation in
the view only ever applies to values already within the cap. -/
theorem C7_truncation_amended :
    (∀ body : String, pyStrip body ≠ "" →
      create_chat_message body = some ((pyStrip body).take 4000)) ∧
    (∀ title description : String, pyStrip title ≠ "" →
      (pyStrip title).length ≤ 200 →
      create_chat_task title description =
        some ((pyStrip title).take 200, (pyStrip description).take 4000)) ∧
    (∀ title description : String, 200 < (pyStrip title).length →
      create_chat_task title description = none) ∧
    (∀ label : String, pyStrip label ≠ "" → (pyStrip label).length ≤ 500 →
      create_todo label = some ((pyStrip label).take 500)) ∧
    (∀ label : String, 500 < (pyStrip label).length → create_todo label = none) := by
  refine ⟨?_, ?_, ?_, ?_, ?_⟩
  · intro body h
    simp only [create_chat_message]
    rw [if_neg h]
  · intro title description h1 h2
    simp only [create_chat_task]
    rw [if_neg h1, if_neg (Nat.not_lt.mpr h2)]
  · intro title description h
    simp only [create_chat_task]
    by_cases h0 : pyStrip title = ""
    · rw [h0] at h
      simp at h
    · rw [if_neg h0, if_pos h]
  · intro label h1 h2
    simp only [create_todo]
    rw [if_neg h1, if_neg (Nat.not_lt.mpr h2)]
  · intro label h
    simp only [create_todo]
    by_cases h0 : pyStrip label = ""
    · rw [h0] at h
      simp at h
    · rw [if_neg h0, if_pos h]

/-- Witness for C7: in-cap submissions persist their trimmed text, and an
over-cap title is rejected. -/
theorem C7_truncation_witness :
    create_chat_message "hi" = some ((pyStrip "hi").take 4000) ∧
    create_chat_task "t" "d" = some ((pyStrip "t").take 200, (pyStrip "d").take 4000) ∧
    create_chat_task (String.mk (List.replicate 201 'x')) "d" = none ∧
    create_todo "item" = some ((pyStrip "item").take 500) ∧
    create_todo (String.mk (List.replicate 501 'y')) = none :=
  ⟨C7_truncation_amended.1 "hi" (by decide),
   C7_truncation_amended.2.1 "t" "d" (by decide) (by decide),
   C7_truncation_amended.2.2.1 (String.mk (List.replicate 201 'x')) "d" (by decide),
   C7_truncation_amended.2.2.2.1 "item" (by decide) (by decide),
   C7_truncation_amended.2.2.2.2 (String.mk (List.replicate 501 'y')) (by decide)⟩

/-! ## C8: display-name fallback -/

/-- C8 as stated is false: a whitespace-only (hence truthy) `full_name` is
returned stripped, producing an empty display name even though the
username is non-empty. -/
theorem C8_empty_display_name_counterexample :
    display_name ⟨" ", "", "", "bob"⟩ = "" ∧
    (⟨" ", "", "", "bob"⟩ : AccountUser).username ≠ "" ∧
    (⟨" ", "", "", "bob"⟩ : AccountUser).full_name ≠ "" := by
  refine ⟨by decide, by decide, by decide⟩

/-- C8 amended: display-name resolution falls back through the stored full
name, then the account's formatted name, then the login identifier, in
that order, and yields a non-empty label for every account whose username
is non-empty — provided the stored full name is not a non-empty string of
pure whitespace (in that one case the resolved label is empty). -/
theorem C8_display_name_amended :
    ∀ u : AccountUser,
      (u.full_name ≠ "" → display_name u = pyStrip u.full_name) ∧
      (u.full_name = "" → pyStrip (get_full_name u) ≠ "" →
        display_name u = pyStrip (get_full_name u)) ∧
      (u.full_name = "" → pyStrip (get_full_name u) = "" →
        display_name u = u.username) ∧
      (u.username ≠ "" → (u.full_name = "" ∨ pyStrip u.full_name ≠ "") →
        display_name u ≠ "") := by
  intro u
  refine ⟨?_, ?_, ?_, ?_⟩
  · intro h
    simp [display_name, h]
  · intro h1 h2
    simp [display_name, h1, h2]
  · intro h1 h2
    simp [display_name, h1, h2]
  · intro hu hfull
    unfold display_name
    by_cases h : u.full_name = ""
    · rw [if_neg (by simp [h])]
      by_cases h2 : pyStrip (get_full_name u) = ""
      · rw [if_neg (by simp [h2])]
        exact hu
      · rw [if_pos h2]
        exact h2
    · rw [if_pos h]
      rcases hfull with h3 | h3
      · exact absurd h3 h
      · exact h3

/-- Witness for C8: every fallback stage produces the expected non-empty
label. -/
theorem C8_display_name_witness :
    display_name ⟨"Ada L", "", "", "ada"⟩ = pyStrip "Ada L" ∧
    display_name ⟨"", "Carol", "X", "cx9"⟩ =
      pyStrip (get_full_name ⟨"", "Carol", "X", "cx9"⟩) ∧
    display_name ⟨"", "", "", "bob"⟩ = "bob" ∧
    display_name ⟨"", "", "", "bob"⟩ ≠ "" :=
  ⟨(C8_display_name_amended ⟨"Ada L", "", "", "ada"⟩).1 (by decide),
   (C8_display_name_amended ⟨"", "Carol", "X", "cx9"⟩).2.1 rfl (by decide),
   (C8_display_name_amended ⟨"", "", "", "bob"⟩).2.2.1 rfl (by decide),
   (C8_display_name_amended ⟨"", "", "", "bob"⟩).2.2.2 (by decide) (Or.inl rfl)⟩
